import Mathlib

/-!
Shallow embedding of the ledger engine of `src/app.py` (a Flask banking demo).

Modelling conventions:
* The persistent JSON store (`banking_data.json`, a dict keyed by username)
  is a `Store := List (String × Account)`; Python dict insertion order is the
  list order, and dict keys are unique by construction (registration refuses
  an existing username), but no uniqueness hypothesis is needed by the lemmas
  below.
* Python `int` amounts (`deposit` parses with `int(...)`) are `ℤ`;
  `float` amounts (`withdraw`, `transfer`, `pay_bills` parse with
  `float(...)`) are modelled as `ℚ`, exact for the dyadic inputs used in the
  concrete theorems below.
* `random.randint(...)` draws and `datetime.now()` strings are explicit
  parameters of each operation.
* Each Flask route mutates the in-memory dict and calls `save_data` only on
  its committing path; an operation here returns the pair
  (result, persisted store after the request), where the persisted store is
  unchanged on every path that does not reach `save_data`-after-mutation.
-/

/-- One entry of a user's `transactions` list, as written by the engine. -/
structure Txn where
  date : String
  desc : String
  type : String
  amount : ℚ
  ref : String
  status : String
deriving Repr, DecidableEq

/-- One customer record of `banking_data.json` as created by `register`. -/
structure Account where
  pin : String
  name : String
  account_no : String
  account_type : String
  tier : String
  daily_used : ℚ
  last_txn_date : String
  balance : ℚ
  status : String
  transactions : List Txn
deriving Repr, DecidableEq

/-- The persisted customer store: username-keyed, in insertion order. -/
abbrev Store := List (String × Account)

/-- `customers.get(username)`. -/
def storeLookup : Store → String → Option Account
  | [], _ => none
  | (k, a) :: rest, key => if k = key then some a else storeLookup rest key

/-- In-place mutation of the record at `key` followed by `save_data`:
every pair whose key matches is replaced (a Python dict holds at most one). -/
def storeUpdate : Store → String → Account → Store
  | [], _, _ => []
  | (k, a) :: rest, key, b =>
    if k = key then (k, b) :: storeUpdate rest key b
    else (k, a) :: storeUpdate rest key b

/-- The recipient scan of `transfer`:
`for uname, data in customers.items(): if data["account_no"] == recipient_acc: ... break`. -/
def storeFindByAccNo : Store → String → Option (String × Account)
  | [], _ => none
  | (k, a) :: rest, acc =>
    if a.account_no = acc then some (k, a) else storeFindByAccNo rest acc

/-- `TIER_LIMITS` of `app.py` lines 13-17. -/
def TIER_LIMITS : List (String × ℚ) :=
  [("Tier 1", 9000000), ("Tier 2", 9000000000), ("Tier 3", 9000000000000)]

/-- `TIER_LIMITS.get(tier, 9000000)`. -/
def tier_limit (tier : String) : ℚ :=
  (((TIER_LIMITS.find? (fun p => p.1 = tier)).map Prod.snd).getD 9000000)

/-- `generate_ref()` (line 36-38): a pure function of the random draw, with
no access to the store and hence no collision check. -/
def generate_ref (r : ℕ) : String := "REF" ++ toString r

/-- The day-rollover reset block of `check_daily_limit` (lines 44-47):
`if user.get("last_txn_date") != today_str: user["daily_used"] = 0; ...`. -/
def reset_for_day (user : Account) (today : String) : Account :=
  if user.last_txn_date ≠ today
  then { user with daily_used := 0, last_txn_date := today } else user

/-- `check_daily_limit(user, amount)` (lines 40-55). It mutates `user` in
memory (day rollover reset); the result is `(allowed, limit, mutated user)`. -/
def check_daily_limit (user : Account) (amount : ℚ) (today : String) :
    Bool × ℚ × Account :=
  let user := reset_for_day user today
  let limit := tier_limit user.tier
  if user.daily_used + amount > limit then (false, limit, user)
  else (true, limit, user)

/-- Result of one engine request, abstracting the flash/redirect outcome. -/
inductive TxResult where
  | accountNotFound
  | insufficientFunds
  | insufficientOrLimit
  | recipientNotFound
  | selfTransfer
  | noOp
  | success (ref : String)
deriving Repr, DecidableEq

/-- Whether the request reached a committing `save_data` after mutating. -/
def TxResult.isSuccess : TxResult → Bool
  | .success _ => true
  | _ => false

/-- `register` (lines 74-99): a new record appended to the dict, refused when
the username exists. The random account number and the date are parameters. -/
def register (store : Store) (username nm pin acc_no today : String) : Store :=
  if (storeLookup store username).isSome then store
  else store ++ [(username,
    { pin := pin, name := nm, account_no := acc_no, account_type := "Savings",
      tier := "Tier 1", daily_used := 0, last_txn_date := today,
      balance := 0, status := "Active", transactions := [] })]

/-- `deposit` (lines 222-249). Amount is parsed with `int(...)`, so `ℤ`.
Mutation and `save_data` happen only under `if amount > 0`. -/
def deposit (store : Store) (username : String) (amount : ℤ) (now ref : String) :
    TxResult × Store :=
  match storeLookup store username with
  | none => (.accountNotFound, store)
  | some user =>
    if amount > 0 then
      let txn : Txn :=
        { date := now, desc := "Cash Deposit", type := "Credit",
          amount := (amount : ℚ), ref := ref, status := "Success" }
      let user' :=
        { user with
          balance := user.balance + (amount : ℚ),
          transactions := txn :: user.transactions }
      (.success ref, storeUpdate store username user')
    else (.noOp, store)

/-- `withdraw` (lines 251-290). Amount parsed with `float(...)`, so `ℚ`.
Reject when `amount > balance`; mutate only under `if amount > 0`. -/
def withdraw (store : Store) (username : String) (amount : ℚ) (now ref : String) :
    TxResult × Store :=
  match storeLookup store username with
  | none => (.accountNotFound, store)
  | some user =>
    if amount > user.balance then (.insufficientFunds, store)
    else if amount > 0 then
      let txn : Txn :=
        { date := now, desc := "Cash Withdrawal", type := "Debit",
          amount := amount, ref := ref, status := "Success" }
      let user' :=
        { user with
          balance := user.balance - amount,
          transactions := txn :: user.transactions }
      (.success ref, storeUpdate store username user')
    else (.noOp, store)

/-- The sender mutation of `transfer` lines 337-349: debit the balance,
count the amount against `daily_used`, prepend the Debit record. -/
def transfer_sender_after (sender recipient : Account) (amount : ℚ)
    (now ref : String) : Account :=
  { sender with
    balance := sender.balance - amount,
    daily_used := sender.daily_used + amount,
    transactions :=
      { date := now, desc := "Transfer to " ++ recipient.name,
        type := "Debit", amount := amount, ref := ref,
        status := "Success" } :: sender.transactions }

/-- The recipient mutation of `transfer` lines 339-359: credit the balance,
prepend the Credit record (same `ref` as the sender leg). -/
def transfer_recipient_after (sender recipient : Account) (amount : ℚ)
    (now ref : String) : Account :=
  { recipient with
    balance := recipient.balance + amount,
    transactions :=
      { date := now, desc := "Received from " ++ sender.name,
        type := "Credit", amount := amount, ref := ref,
        status := "Success" } :: recipient.transactions }

/-- `transfer` (lines 292-362). Amount parsed with `float(...)`, so `ℚ`.
The single rejection `if not allowed or sender["balance"] < amount` merges the
daily-limit and balance checks; there is no `amount > 0` check anywhere. -/
def transfer (store : Store) (sender_username recipient_acc : String)
    (amount : ℚ) (today now ref : String) : TxResult × Store :=
  match storeLookup store sender_username with
  | none => (.accountNotFound, store)
  | some sender0 =>
    let cdl := check_daily_limit sender0 amount today
    if cdl.1 = false ∨ cdl.2.2.balance < amount then (.insufficientOrLimit, store)
    else
      match storeFindByAccNo store recipient_acc with
      | none => (.recipientNotFound, store)
      | some (recipient_username, recipient) =>
        if recipient_username = sender_username then (.selfTransfer, store)
        else
          (.success ref,
            storeUpdate
              (storeUpdate store sender_username
                (transfer_sender_after cdl.2.2 recipient amount now ref))
              recipient_username
              (transfer_recipient_after cdl.2.2 recipient amount now ref))

/-- The free-form bill fields of the `pay_bills` request
(`request.form.get(..., default)` reads, absent field = `none`). -/
structure BillForm where
  bill_type : String
  network : Option String := none
  phone_number : Option String := none
  disco : Option String := none
  meter_number : Option String := none
  cable_provider : Option String := none
  smartcard : Option String := none
  bet_platform : Option String := none
  bet_id : Option String := none
deriving Repr, DecidableEq

/-- Description construction of `pay_bills` (lines 388-409). -/
def bill_desc (f : BillForm) : String :=
  if f.bill_type = "Airtime" ∨ f.bill_type = "Data" then
    f.bill_type ++ ": " ++ f.network.getD "Mobile" ++ " " ++ f.phone_number.getD ""
  else if f.bill_type = "Electricity" then
    "Power: " ++ f.disco.getD "Power" ++ " (" ++ f.meter_number.getD "" ++ ")"
  else if f.bill_type = "Cable" then
    "Cable: " ++ f.cable_provider.getD "Cable" ++ " (" ++ f.smartcard.getD "" ++ ")"
  else if f.bill_type = "Betting" then
    "Betting: " ++ f.bet_platform.getD "Bet" ++ " (" ++ f.bet_id.getD "" ++ ")"
  else "Bill: " ++ f.bill_type

/-- `pay_bills` (lines 365-427). Amount parsed with `float(...)`, so `ℚ`.
Only check: `if user["balance"] < amount`; no `amount > 0` check. -/
def pay_bills (store : Store) (username : String) (amount : ℚ) (form : BillForm)
    (now ref : String) : TxResult × Store :=
  match storeLookup store username with
  | none => (.accountNotFound, store)
  | some user =>
    if user.balance < amount then (.insufficientFunds, store)
    else
      let txn : Txn :=
        { date := now, desc := bill_desc form, type := "Debit",
          amount := amount, ref := ref, status := "Success" }
      let user' :=
        { user with
          balance := user.balance - amount,
          transactions := txn :: user.transactions }
      (.success ref, storeUpdate store username user')

/-- The tier step of `upgrade_tier` lines 208-217: Tier 1 to Tier 2,
Tier 2 to Tier 3, anything else unchanged. -/
def upgrade_tier_user (user : Account) : Account :=
  if user.tier = "Tier 1" then { user with tier := "Tier 2" }
  else if user.tier = "Tier 2" then { user with tier := "Tier 3" }
  else user

/-- `upgrade_tier` (lines 197-220): one tier step up, `save_data` always. -/
def upgrade_tier (store : Store) (username : String) : TxResult × Store :=
  match storeLookup store username with
  | none => (.accountNotFound, store)
  | some user =>
    (.success "", storeUpdate store username (upgrade_tier_user user))

/-- A concrete account in the shape `register` creates, after some activity. -/
def acctA : Account :=
  { pin := "1111", name := "Alice", account_no := "2000000001",
    account_type := "Savings", tier := "Tier 1", daily_used := 0,
    last_txn_date := "2026-10-12", balance := 1000, status := "Active",
    transactions := [] }

/-- A second concrete account with a different account number. -/
def acctB : Account :=
  { pin := "2222", name := "Bob", account_no := "2000000002",
    account_type := "Savings", tier := "Tier 1", daily_used := 0,
    last_txn_date := "2026-10-12", balance := 0, status := "Active",
    transactions := [] }

/-- A concrete two-customer store used by the concrete theorems below. -/
def sampleStore : Store := [("alice", acctA), ("bob", acctB)]

set_option maxRecDepth 400000

theorem lookup_update (s : Store) (u : String) (b : Account) (k : String) :
    storeLookup (storeUpdate s u b) k =
      if u = k then (storeLookup s k).map (fun _ => b) else storeLookup s k := by
  induction s with
  | nil => simp [storeUpdate, storeLookup]
  | cons p rest ih =>
    obtain ⟨k0, a0⟩ := p
    by_cases h1 : k0 = u <;> by_cases h2 : k0 = k
    · subst h1; subst h2; simp [storeUpdate, storeLookup]
    · subst h1; simp [storeUpdate, storeLookup, h2, ih]
    · subst h2
      rw [if_neg (fun h => h1 h.symm)]
      simp [storeUpdate, storeLookup, h1]
    · simp [storeUpdate, storeLookup, h1, h2, ih]

theorem findByAccNo_mem_key (s : Store) (acc u : String) (c : Account)
    (h : storeFindByAccNo s acc = some (u, c)) :
    ∃ d, storeLookup s u = some d := by
  induction s with
  | nil => simp [storeFindByAccNo] at h
  | cons p rest ih =>
    obtain ⟨k0, a0⟩ := p
    simp only [storeFindByAccNo] at h
    by_cases h0 : a0.account_no = acc
    · rw [if_pos h0] at h
      obtain ⟨h1, h2⟩ := Prod.mk.injEq .. ▸ Option.some.injEq .. ▸ h
      exact ⟨a0, by simp [storeLookup, h1]⟩
    · rw [if_neg h0] at h
      obtain ⟨d, hd⟩ := ih h
      by_cases hk : k0 = u
      · exact ⟨a0, by simp [storeLookup, hk]⟩
      · exact ⟨d, by simp [storeLookup, hk, hd]⟩

theorem reset_for_day_today (user : Account) (t : String)
    (h : user.last_txn_date = t) : reset_for_day user t = user := by
  unfold reset_for_day
  rw [if_neg (by simp [h])]

theorem reset_for_day_rollover (user : Account) (t : String)
    (h : user.last_txn_date ≠ t) :
    reset_for_day user t = { user with daily_used := 0, last_txn_date := t } := by
  unfold reset_for_day
  rw [if_pos h]

theorem reset_for_day_fields (user : Account) (t : String) :
    (reset_for_day user t).balance = user.balance ∧
    (reset_for_day user t).transactions = user.transactions ∧
    (reset_for_day user t).tier = user.tier ∧
    (reset_for_day user t).name = user.name := by
  unfold reset_for_day
  split <;> exact ⟨rfl, rfl, rfl, rfl⟩

theorem check_daily_limit_eq (user : Account) (a : ℚ) (t : String) :
    check_daily_limit user a t =
      (decide ((reset_for_day user t).daily_used + a ≤ tier_limit user.tier),
       tier_limit user.tier, reset_for_day user t) := by
  unfold check_daily_limit
  dsimp only
  have htier : (reset_for_day user t).tier = user.tier :=
    (reset_for_day_fields user t).2.2.1
  rw [htier]
  by_cases hc : (reset_for_day user t).daily_used + a > tier_limit user.tier
  · rw [if_pos hc, decide_eq_false (not_le.2 hc)]
  · rw [if_neg hc, decide_eq_true (not_lt.1 hc)]

/-- Claim C1 (refuted by the code): starting from two freshly registered
accounts (balance 0 each), a transfer of amount -100 from alice to bob's
account number passes every check of `transfer` (there is no `amount > 0`
check), commits, and leaves bob with persisted balance -100 < 0. -/
theorem transfer_drives_balance_negative :
    (transfer (register (register [] "alice" "Alice" "1111" "2000000001" "2026-10-12")
        "bob" "Bob" "2222" "2000000002" "2026-10-12")
      "alice" "2000000002" (-100) "2026-10-12" "12-10-2026 09:00" "REF1000000001").1
      = TxResult.success "REF1000000001" ∧
    ((storeLookup (transfer (register (register []
          "alice" "Alice" "1111" "2000000001" "2026-10-12")
        "bob" "Bob" "2222" "2000000002" "2026-10-12")
      "alice" "2000000002" (-100) "2026-10-12" "12-10-2026 09:00" "REF1000000001").2
      "bob").map Account.balance) = some (-100) ∧
    ((-100 : ℚ) < 0) := by
  with_unfolding_all decide

/-- Claim C3 (refuted by the code): `transfer` has no `amount > 0` check, so
a transfer of the non-positive amount 0 is not rejected with any error: it
commits (result `success`) and mutates both histories. -/
theorem transfer_nonpositive_not_rejected :
    (transfer sampleStore "alice" "2000000002" 0 "2026-10-12" "t" "REF2").1
      = TxResult.success "REF2" ∧
    ((storeLookup (transfer sampleStore "alice" "2000000002" 0 "2026-10-12" "t"
        "REF2").2 "alice").map (fun u => u.transactions.length)) = some 1 ∧
    ((0 : ℚ) > 0) = False := by
  with_unfolding_all decide

/-- Claim C4 (refuted by the code): `generate_ref` is a pure function of the
random draw with no collision check against the store, so two operations
whose draws coincide commit two transaction records with the same reference. -/
theorem generate_ref_collision_not_detected :
    generate_ref 1000000000 = "REF1000000000" ∧
    ((storeLookup (deposit (deposit sampleStore
          "alice" 10 "d1" (generate_ref 1000000000)).2
        "alice" 20 "d2" (generate_ref 1000000000)).2 "alice").map
      (fun u => u.transactions.map Txn.ref))
      = some ["REF1000000000", "REF1000000000"] := by
  with_unfolding_all decide

/-- Claim C6 (refuted by the code): `pay_bills` only checks
`user["balance"] < amount`, so a bill payment of the negative amount -50 from
an account with balance 0 is not rejected with `InvalidAmount`: it commits,
raises the balance to 50 and appends a Debit record of amount -50. -/
theorem pay_bills_negative_amount_not_rejected :
    (pay_bills sampleStore "bob" (-50) { bill_type := "Airtime" } "t" "REF9").1
      = TxResult.success "REF9" ∧
    ((storeLookup (pay_bills sampleStore "bob" (-50) { bill_type := "Airtime" }
        "t" "REF9").2 "bob").map Account.balance) = some 50 ∧
    ((-50 : ℚ) > 0) = False := by
  with_unfolding_all decide

/-- Claim C9 (refuted by the code): `withdraw` parses its amount with
`float(...)` and does the balance arithmetic on it; a withdrawal of 1/2 from
balance 1000 commits and leaves the non-integral balance 1999/2. -/
theorem withdraw_fractional_amount_accepted :
    (withdraw sampleStore "alice" (mkRat 1 2) "t" "REF5").1
      = TxResult.success "REF5" ∧
    ((storeLookup (withdraw sampleStore "alice" (mkRat 1 2) "t" "REF5").2
      "alice").map Account.balance) = some (mkRat 1999 2) ∧
    (mkRat 1999 2).den ≠ 1 := by
  with_unfolding_all decide

theorem transfer_eq_notFound (store : Store) (su racc : String) (a : ℚ)
    (today now ref : String) (h : storeLookup store su = none) :
    transfer store su racc a today now ref = (.accountNotFound, store) := by
  unfold transfer
  rw [h]

theorem transfer_eq_limited (store : Store) (su racc : String) (a : ℚ)
    (today now ref : String) (sender0 : Account)
    (hs : storeLookup store su = some sender0)
    (hcond : (check_daily_limit sender0 a today).1 = false ∨
      (check_daily_limit sender0 a today).2.2.balance < a) :
    transfer store su racc a today now ref = (.insufficientOrLimit, store) := by
  unfold transfer
  rw [hs]
  dsimp only
  rw [if_pos hcond]

theorem transfer_eq_noRecipient (store : Store) (su racc : String) (a : ℚ)
    (today now ref : String) (sender0 : Account)
    (hs : storeLookup store su = some sender0)
    (hcond : ¬ ((check_daily_limit sender0 a today).1 = false ∨
      (check_daily_limit sender0 a today).2.2.balance < a))
    (hfr : storeFindByAccNo store racc = none) :
    transfer store su racc a today now ref = (.recipientNotFound, store) := by
  unfold transfer
  rw [hs]
  dsimp only
  rw [if_neg hcond, hfr]

theorem transfer_eq_self (store : Store) (su racc : String) (a : ℚ)
    (today now ref : String) (sender0 recip0 : Account)
    (hs : storeLookup store su = some sender0)
    (hcond : ¬ ((check_daily_limit sender0 a today).1 = false ∨
      (check_daily_limit sender0 a today).2.2.balance < a))
    (hfr : storeFindByAccNo store racc = some (su, recip0)) :
    transfer store su racc a today now ref = (.selfTransfer, store) := by
  unfold transfer
  rw [hs]
  dsimp only
  rw [if_neg hcond, hfr]
  dsimp only
  rw [if_pos rfl]

theorem transfer_eq_success (store : Store) (su racc : String) (a : ℚ)
    (today now ref : String) (sender0 : Account) (ru : String) (recip0 : Account)
    (hs : storeLookup store su = some sender0)
    (hcond : ¬ ((check_daily_limit sender0 a today).1 = false ∨
      (check_daily_limit sender0 a today).2.2.balance < a))
    (hfr : storeFindByAccNo store racc = some (ru, recip0))
    (hru : ru ≠ su) :
    transfer store su racc a today now ref =
      (.success ref,
        storeUpdate
          (storeUpdate store su
            (transfer_sender_after (check_daily_limit sender0 a today).2.2
              recip0 a now ref))
          ru
          (transfer_recipient_after (check_daily_limit sender0 a today).2.2
            recip0 a now ref)) := by
  unfold transfer
  rw [hs]
  dsimp only
  rw [if_neg hcond, hfr]
  dsimp only
  rw [if_neg hru]

/-- Claim C2: every successful transfer conserves money and appends exactly
one Debit/Credit pair sharing the reference. -/
theorem transfer_conservation (store : Store) (su racc : String) (a : ℚ)
    (today now ref : String) (sender0 : Account) (ru : String) (recip0 : Account)
    (hs : storeLookup store su = some sender0)
    (hfr : storeFindByAccNo store racc = some (ru, recip0))
    (hsucc : (transfer store su racc a today now ref).1 = TxResult.success ref) :
    ∃ sender1 recip1 : Account,
      storeLookup (transfer store su racc a today now ref).2 su = some sender1 ∧
      storeLookup (transfer store su racc a today now ref).2 ru = some recip1 ∧
      sender1.balance = sender0.balance - a ∧
      recip1.balance = recip0.balance + a ∧
      sender1.balance + recip1.balance = sender0.balance + recip0.balance ∧
      (∃ d : Txn, sender1.transactions = d :: sender0.transactions ∧
        d.type = "Debit" ∧ d.amount = a ∧ d.ref = ref) ∧
      (∃ c : Txn, recip1.transactions = c :: recip0.transactions ∧
        c.type = "Credit" ∧ c.amount = a ∧ c.ref = ref) := by
  by_cases hcond : (check_daily_limit sender0 a today).1 = false ∨
      (check_daily_limit sender0 a today).2.2.balance < a
  · rw [transfer_eq_limited store su racc a today now ref sender0 hs hcond] at hsucc
    cases hsucc
  by_cases hru : ru = su
  · subst hru
    rw [transfer_eq_self store ru racc a today now ref sender0 recip0 hs hcond hfr]
      at hsucc
    cases hsucc
  rw [transfer_eq_success store su racc a today now ref sender0 ru recip0
    hs hcond hfr hru]
  obtain ⟨d0, hd0⟩ := findByAccNo_mem_key store racc ru recip0 hfr
  have hbal : (check_daily_limit sender0 a today).2.2.balance = sender0.balance := by
    rw [check_daily_limit_eq]
    exact (reset_for_day_fields sender0 today).1
  have htx : (check_daily_limit sender0 a today).2.2.transactions
      = sender0.transactions := by
    rw [check_daily_limit_eq]
    exact (reset_for_day_fields sender0 today).2.1
  refine ⟨transfer_sender_after (check_daily_limit sender0 a today).2.2
      recip0 a now ref,
    transfer_recipient_after (check_daily_limit sender0 a today).2.2
      recip0 a now ref, ?_, ?_, ?_, ?_, ?_, ?_, ?_⟩
  · rw [lookup_update, if_neg hru, lookup_update, if_pos rfl, hs]
    rfl
  · rw [lookup_update, if_pos rfl, lookup_update,
      if_neg (fun h => hru h.symm), hd0]
    rfl
  · show (check_daily_limit sender0 a today).2.2.balance - a = sender0.balance - a
    rw [hbal]
  · rfl
  · show ((check_daily_limit sender0 a today).2.2.balance - a)
      + (recip0.balance + a) = sender0.balance + recip0.balance
    rw [hbal]; ring
  · exact ⟨_, by rw [transfer_sender_after, htx], rfl, rfl, rfl⟩
  · exact ⟨_, rfl, rfl, rfl, rfl⟩

/-- Witness for C2: the scenario of the spec, alice (balance 1000) sends 400
to bob (balance 0) on the current day. -/
theorem transfer_conservation_witness :
    ∃ sender1 recip1 : Account,
      storeLookup (transfer sampleStore "alice" "2000000002" 400
        "2026-10-12" "t" "REF21").2 "alice" = some sender1 ∧
      storeLookup (transfer sampleStore "alice" "2000000002" 400
        "2026-10-12" "t" "REF21").2 "bob" = some recip1 ∧
      sender1.balance = acctA.balance - 400 ∧
      recip1.balance = acctB.balance + 400 ∧
      sender1.balance + recip1.balance = acctA.balance + acctB.balance ∧
      (∃ d : Txn, sender1.transactions = d :: acctA.transactions ∧
        d.type = "Debit" ∧ d.amount = 400 ∧ d.ref = "REF21") ∧
      (∃ c : Txn, recip1.transactions = c :: acctB.transactions ∧
        c.type = "Credit" ∧ c.amount = 400 ∧ c.ref = "REF21") :=
  transfer_conservation sampleStore "alice" "2000000002" 400 "2026-10-12" "t"
    "REF21" acctA "bob" acctB (by with_unfolding_all decide)
    (by with_unfolding_all decide) (by with_unfolding_all decide)

/-- Claim C5: with the sender looked up, on the current day, with
`a <= balance`, a resolvable non-self recipient: the transfer commits iff
`daily_used + a <= tier limit`, and when `daily_used + a` exceeds the limit
the persisted store is exactly the pre-call store. -/
theorem transfer_daily_cap (store : Store) (su racc : String) (a : ℚ)
    (today now ref : String) (sender0 : Account) (ru : String) (recip0 : Account)
    (hs : storeLookup store su = some sender0)
    (hdate : sender0.last_txn_date = today)
    (hbal : a ≤ sender0.balance)
    (hfr : storeFindByAccNo store racc = some (ru, recip0))
    (hru : ru ≠ su) :
    ((transfer store su racc a today now ref).1 = TxResult.success ref ↔
      sender0.daily_used + a ≤ tier_limit sender0.tier) ∧
    (tier_limit sender0.tier < sender0.daily_used + a →
      transfer store su racc a today now ref
        = (TxResult.insufficientOrLimit, store)) := by
  have hcdl : check_daily_limit sender0 a today =
      (decide (sender0.daily_used + a ≤ tier_limit sender0.tier),
       tier_limit sender0.tier, sender0) := by
    rw [check_daily_limit_eq, reset_for_day_today sender0 today hdate]
  by_cases hle : sender0.daily_used + a ≤ tier_limit sender0.tier
  · have hcond : ¬ ((check_daily_limit sender0 a today).1 = false ∨
        (check_daily_limit sender0 a today).2.2.balance < a) := by
      rw [hcdl]
      rintro (h1 | h2)
      · rw [decide_eq_true hle] at h1
        cases h1
      · exact absurd h2 (not_lt.2 hbal)
    refine ⟨⟨fun _ => hle, fun _ => ?_⟩, fun hgt => absurd hle (not_le.2 hgt)⟩
    rw [transfer_eq_success store su racc a today now ref sender0 ru recip0
      hs hcond hfr hru]
  · have hcond : (check_daily_limit sender0 a today).1 = false ∨
        (check_daily_limit sender0 a today).2.2.balance < a := by
      left
      rw [hcdl]
      exact decide_eq_false hle
    refine ⟨⟨fun hsucc => ?_, fun h => absurd h hle⟩, fun _ =>
      transfer_eq_limited store su racc a today now ref sender0 hs hcond⟩
    rw [transfer_eq_limited store su racc a today now ref sender0 hs hcond]
      at hsucc
    cases hsucc

/-- Witness for C5: alice, Tier 1, daily_used 0, sends 400; the cap check
passes and the iff evaluates at the concrete store. -/
theorem transfer_daily_cap_witness :
    ((transfer sampleStore "alice" "2000000002" 400 "2026-10-12" "t"
        "REF51").1 = TxResult.success "REF51" ↔
      acctA.daily_used + 400 ≤ tier_limit acctA.tier) ∧
    (tier_limit acctA.tier < acctA.daily_used + 400 →
      transfer sampleStore "alice" "2000000002" 400 "2026-10-12" "t" "REF51"
        = (TxResult.insufficientOrLimit, sampleStore)) :=
  transfer_daily_cap sampleStore "alice" "2000000002" 400 "2026-10-12" "t"
    "REF51" acctA "bob" acctB (by with_unfolding_all decide)
    (by with_unfolding_all decide) (by with_unfolding_all decide)
    (by with_unfolding_all decide) (by with_unfolding_all decide)

/-- Claim C7: every rejected operation commits nothing: whenever the result
is not a success the persisted store is exactly the pre-call store, and a
transfer whose recipient scan finds the sender is rejected as a
self-transfer with no mutation. -/
theorem rejected_ops_no_mutation (store : Store) (u racc : String)
    (az : ℤ) (a : ℚ) (today now ref : String) (form : BillForm) :
    ((deposit store u az now ref).1.isSuccess = false →
      (deposit store u az now ref).2 = store) ∧
    ((withdraw store u a now ref).1.isSuccess = false →
      (withdraw store u a now ref).2 = store) ∧
    ((transfer store u racc a today now ref).1.isSuccess = false →
      (transfer store u racc a today now ref).2 = store) ∧
    ((pay_bills store u a form now ref).1.isSuccess = false →
      (pay_bills store u a form now ref).2 = store) ∧
    (∀ sender0 recip0 : Account, storeLookup store u = some sender0 →
      storeFindByAccNo store racc = some (u, recip0) →
      ¬ ((check_daily_limit sender0 a today).1 = false ∨
        (check_daily_limit sender0 a today).2.2.balance < a) →
      transfer store u racc a today now ref
        = (TxResult.selfTransfer, store)) := by
  refine ⟨?_, ?_, ?_, ?_, ?_⟩
  · intro h
    cases hls : storeLookup store u with
    | none => unfold deposit; rw [hls]
    | some user =>
      by_cases haz : az > 0
      · unfold deposit at h
        rw [hls] at h
        dsimp only at h
        rw [if_pos haz] at h
        simp [TxResult.isSuccess] at h
      · unfold deposit
        rw [hls]
        dsimp only
        rw [if_neg haz]
  · intro h
    cases hls : storeLookup store u with
    | none => unfold withdraw; rw [hls]
    | some user =>
      by_cases hover : a > user.balance
      · unfold withdraw
        rw [hls]
        dsimp only
        rw [if_pos hover]
      · by_cases hpos : a > 0
        · unfold withdraw at h
          rw [hls] at h
          dsimp only at h
          rw [if_neg hover, if_pos hpos] at h
          simp [TxResult.isSuccess] at h
        · unfold withdraw
          rw [hls]
          dsimp only
          rw [if_neg hover, if_neg hpos]
  · intro h
    cases hls : storeLookup store u with
    | none => rw [transfer_eq_notFound store u racc a today now ref hls]
    | some sender0 =>
      by_cases hcond : (check_daily_limit sender0 a today).1 = false ∨
          (check_daily_limit sender0 a today).2.2.balance < a
      · rw [transfer_eq_limited store u racc a today now ref sender0 hls hcond]
      · cases hfr : storeFindByAccNo store racc with
        | none =>
          rw [transfer_eq_noRecipient store u racc a today now ref sender0
            hls hcond hfr]
        | some pr =>
          obtain ⟨ru, recip0⟩ := pr
          by_cases hru : ru = u
          · subst hru
            rw [transfer_eq_self store ru racc a today now ref sender0 recip0
              hls hcond hfr]
          · rw [transfer_eq_success store u racc a today now ref sender0 ru
              recip0 hls hcond hfr hru] at h
            simp [TxResult.isSuccess] at h
  · intro h
    cases hls : storeLookup store u with
    | none => unfold pay_bills; rw [hls]
    | some user =>
      by_cases hover : user.balance < a
      · unfold pay_bills
        rw [hls]
        dsimp only
        rw [if_pos hover]
      · unfold pay_bills at h
        rw [hls] at h
        dsimp only at h
        rw [if_neg hover] at h
        simp [TxResult.isSuccess] at h
  · intro sender0 recip0 hs hfr hcond
    exact transfer_eq_self store u racc a today now ref sender0 recip0
      hs hcond hfr

/-- Witness for C7: five concrete rejected requests against the sample store
(non-positive deposit, overdrawn withdrawal, transfer to an unknown account
number, overdrawn bill payment, self-transfer), each leaving it unchanged. -/
theorem rejected_ops_no_mutation_witness :
    (deposit sampleStore "alice" (-5) "t" "R71").2 = sampleStore ∧
    (withdraw sampleStore "alice" 2000 "t" "R72").2 = sampleStore ∧
    (transfer sampleStore "alice" "9999999999" 10 "2026-10-12" "t" "R73").2
      = sampleStore ∧
    (pay_bills sampleStore "bob" 100 { bill_type := "Cable" } "t" "R74").2
      = sampleStore ∧
    transfer sampleStore "alice" "2000000001" 5 "2026-10-12" "t" "R75"
      = (TxResult.selfTransfer, sampleStore) :=
  ⟨(rejected_ops_no_mutation sampleStore "alice" "9999999999" (-5) 10
      "2026-10-12" "t" "R71" { bill_type := "Cable" }).1
      (by with_unfolding_all decide),
   (rejected_ops_no_mutation sampleStore "alice" "9999999999" (-5) 2000
      "2026-10-12" "t" "R72" { bill_type := "Cable" }).2.1
      (by with_unfolding_all decide),
   (rejected_ops_no_mutation sampleStore "alice" "9999999999" (-5) 10
      "2026-10-12" "t" "R73" { bill_type := "Cable" }).2.2.1
      (by with_unfolding_all decide),
   (rejected_ops_no_mutation sampleStore "bob" "9999999999" (-5) 100
      "2026-10-12" "t" "R74" { bill_type := "Cable" }).2.2.2.1
      (by with_unfolding_all decide),
   (rejected_ops_no_mutation sampleStore "alice" "2000000001" (-5) 5
      "2026-10-12" "t" "R75" { bill_type := "Cable" }).2.2.2.2 acctA acctA
      (by with_unfolding_all decide) (by with_unfolding_all decide)
      (by with_unfolding_all decide)⟩

/-- Claim C8: only outbound transfers touch the daily cap. Deposit, withdraw
and bill payment preserve every account's persisted `daily_used` and their
success is characterized without any limit or tier condition, while a
committing transfer adds exactly the amount to the sender's `daily_used`. -/
theorem daily_cap_scope (store : Store) (u racc k : String) (az : ℤ) (a : ℚ)
    (today now ref : String) (form : BillForm) (sender0 : Account)
    (hs : storeLookup store u = some sender0)
    (hdate : sender0.last_txn_date = today)
    (hsucc : (transfer store u racc a today now ref).1 = TxResult.success ref) :
    ((storeLookup (deposit store u az now ref).2 k).map Account.daily_used
      = (storeLookup store k).map Account.daily_used) ∧
    ((storeLookup (withdraw store u a now ref).2 k).map Account.daily_used
      = (storeLookup store k).map Account.daily_used) ∧
    ((storeLookup (pay_bills store u a form now ref).2 k).map Account.daily_used
      = (storeLookup store k).map Account.daily_used) ∧
    ((deposit store u az now ref).1.isSuccess = true ↔ 0 < az) ∧
    ((withdraw store u a now ref).1.isSuccess = true ↔
      (¬ sender0.balance < a ∧ 0 < a)) ∧
    ((pay_bills store u a form now ref).1.isSuccess = true ↔
      ¬ sender0.balance < a) ∧
    (∃ sender1, storeLookup (transfer store u racc a today now ref).2 u
      = some sender1 ∧ sender1.daily_used = sender0.daily_used + a) := by
  refine ⟨?_, ?_, ?_, ?_, ?_, ?_, ?_⟩
  · unfold deposit
    rw [hs]
    dsimp only
    by_cases haz : az > 0
    · rw [if_pos haz]
      dsimp only
      rw [lookup_update]
      by_cases hk : u = k
      · rw [if_pos hk]
        subst hk
        rw [hs]
        rfl
      · rw [if_neg hk]
    · rw [if_neg haz]
  · unfold withdraw
    rw [hs]
    dsimp only
    by_cases hover : a > sender0.balance
    · rw [if_pos hover]
    · rw [if_neg hover]
      by_cases hpos : a > 0
      · rw [if_pos hpos]
        dsimp only
        rw [lookup_update]
        by_cases hk : u = k
        · rw [if_pos hk]
          subst hk
          rw [hs]
          rfl
        · rw [if_neg hk]
      · rw [if_neg hpos]
  · unfold pay_bills
    rw [hs]
    dsimp only
    by_cases hover : sender0.balance < a
    · rw [if_pos hover]
    · rw [if_neg hover]
      dsimp only
      rw [lookup_update]
      by_cases hk : u = k
      · rw [if_pos hk]
        subst hk
        rw [hs]
        rfl
      · rw [if_neg hk]
  · unfold deposit
    rw [hs]
    dsimp only
    by_cases haz : az > 0
    · rw [if_pos haz]
      simp [TxResult.isSuccess, haz]
    · rw [if_neg haz]
      simp [TxResult.isSuccess, haz]
  · unfold withdraw
    rw [hs]
    dsimp only
    by_cases hover : a > sender0.balance
    · rw [if_pos hover]
      simp [TxResult.isSuccess, hover]
    · rw [if_neg hover]
      by_cases hpos : a > 0
      · rw [if_pos hpos]
        simp [TxResult.isSuccess, hover, hpos]
      · rw [if_neg hpos]
        simp [TxResult.isSuccess, hpos]
  · unfold pay_bills
    rw [hs]
    dsimp only
    by_cases hover : sender0.balance < a
    · rw [if_pos hover]
      simp [TxResult.isSuccess, hover]
    · rw [if_neg hover]
      simp [TxResult.isSuccess, hover]
  · by_cases hcond : (check_daily_limit sender0 a today).1 = false ∨
        (check_daily_limit sender0 a today).2.2.balance < a
    · rw [transfer_eq_limited store u racc a today now ref sender0 hs hcond]
        at hsucc
      cases hsucc
    · cases hfr : storeFindByAccNo store racc with
      | none =>
        rw [transfer_eq_noRecipient store u racc a today now ref sender0
          hs hcond hfr] at hsucc
        cases hsucc
      | some pr =>
        obtain ⟨ru, recip0⟩ := pr
        by_cases hru : ru = u
        · subst hru
          rw [transfer_eq_self store ru racc a today now ref sender0 recip0
            hs hcond hfr] at hsucc
          cases hsucc
        · rw [transfer_eq_success store u racc a today now ref sender0 ru
            recip0 hs hcond hfr hru]
          refine ⟨transfer_sender_after (check_daily_limit sender0 a today).2.2
            recip0 a now ref, ?_, ?_⟩
          · rw [lookup_update, if_neg hru, lookup_update, if_pos rfl, hs]
            rfl
          · show (check_daily_limit sender0 a today).2.2.daily_used + a
              = sender0.daily_used + a
            rw [check_daily_limit_eq, reset_for_day_today sender0 today hdate]

/-- Witness for C8 at the sample store: a deposit of 10, a withdrawal of 400,
a bill payment of 200 and a transfer of 400 by alice, observed at bob's key. -/
theorem daily_cap_scope_witness :
    ((storeLookup (deposit sampleStore "alice" 10 "t" "R81").2 "bob").map
      Account.daily_used = (storeLookup sampleStore "bob").map
      Account.daily_used) ∧
    ((storeLookup (withdraw sampleStore "alice" 400 "t" "R81").2 "bob").map
      Account.daily_used = (storeLookup sampleStore "bob").map
      Account.daily_used) ∧
    ((storeLookup (pay_bills sampleStore "alice" 200
        { bill_type := "Betting" } "t" "R81").2 "bob").map Account.daily_used
      = (storeLookup sampleStore "bob").map Account.daily_used) ∧
    ((deposit sampleStore "alice" 10 "t" "R81").1.isSuccess = true ↔
      (0 : ℤ) < 10) ∧
    ((withdraw sampleStore "alice" 400 "t" "R81").1.isSuccess = true ↔
      (¬ acctA.balance < 400 ∧ (0 : ℚ) < 400)) ∧
    ((pay_bills sampleStore "alice" 200 { bill_type := "Betting" } "t"
        "R81").1.isSuccess = true ↔ ¬ acctA.balance < 200) ∧
    (∃ sender1, storeLookup (transfer sampleStore "alice" "2000000002" 400
        "2026-10-12" "t" "R81").2 "alice" = some sender1 ∧
      sender1.daily_used = acctA.daily_used + 400) :=
  daily_cap_scope sampleStore "alice" "2000000002" "bob" 10 400 "2026-10-12"
    "t" "R81" { bill_type := "Betting" } acctA (by with_unfolding_all decide)
    (by with_unfolding_all decide) (by with_unfolding_all decide)

theorem upgrade_tier_user_fields (user : Account) :
    (upgrade_tier_user user).balance = user.balance ∧
    (upgrade_tier_user user).daily_used = user.daily_used ∧
    (upgrade_tier_user user).transactions = user.transactions ∧
    (upgrade_tier_user user).last_txn_date = user.last_txn_date ∧
    (upgrade_tier_user user).pin = user.pin ∧
    (upgrade_tier_user user).name = user.name ∧
    (upgrade_tier_user user).account_no = user.account_no ∧
    (upgrade_tier_user user).account_type = user.account_type ∧
    (upgrade_tier_user user).status = user.status := by
  unfold upgrade_tier_user
  split
  · exact ⟨rfl, rfl, rfl, rfl, rfl, rfl, rfl, rfl, rfl⟩
  split
  · exact ⟨rfl, rfl, rfl, rfl, rfl, rfl, rfl, rfl, rfl⟩
  · exact ⟨rfl, rfl, rfl, rfl, rfl, rfl, rfl, rfl, rfl⟩

theorem upgrade_tier_user_tier (user : Account) :
    (user.tier = "Tier 1" → (upgrade_tier_user user).tier = "Tier 2") ∧
    (user.tier = "Tier 2" → (upgrade_tier_user user).tier = "Tier 3") ∧
    (user.tier = "Tier 3" → (upgrade_tier_user user).tier = "Tier 3") := by
  unfold upgrade_tier_user
  refine ⟨fun h => ?_, fun h => ?_, fun h => ?_⟩
  · rw [if_pos h]
  · rw [if_neg (by rw [h]; decide), if_pos h]
  · rw [if_neg (by rw [h]; decide), if_neg (by rw [h]; decide)]
    exact h

/-- Claim C10: `upgrade_tier` advances the tier one step (Tier 1 to Tier 2,
Tier 2 to Tier 3, Tier 3 unchanged) and changes nothing else: every other
field of the account and every other key of the store are preserved. -/
theorem upgrade_tier_step_spec (store : Store) (u k : String) (user0 : Account)
    (hs : storeLookup store u = some user0) (hk : k ≠ u) :
    ∃ user1, storeLookup (upgrade_tier store u).2 u = some user1 ∧
      (user0.tier = "Tier 1" → user1.tier = "Tier 2") ∧
      (user0.tier = "Tier 2" → user1.tier = "Tier 3") ∧
      (user0.tier = "Tier 3" → user1.tier = "Tier 3") ∧
      user1.balance = user0.balance ∧
      user1.daily_used = user0.daily_used ∧
      user1.transactions = user0.transactions ∧
      user1.last_txn_date = user0.last_txn_date ∧
      user1.pin = user0.pin ∧
      user1.name = user0.name ∧
      user1.account_no = user0.account_no ∧
      user1.account_type = user0.account_type ∧
      user1.status = user0.status ∧
      storeLookup (upgrade_tier store u).2 k = storeLookup store k := by
  unfold upgrade_tier
  rw [hs]
  dsimp only
  refine ⟨upgrade_tier_user user0, ?_, (upgrade_tier_user_tier user0).1,
    (upgrade_tier_user_tier user0).2.1, (upgrade_tier_user_tier user0).2.2,
    (upgrade_tier_user_fields user0).1,
    (upgrade_tier_user_fields user0).2.1,
    (upgrade_tier_user_fields user0).2.2.1,
    (upgrade_tier_user_fields user0).2.2.2.1,
    (upgrade_tier_user_fields user0).2.2.2.2.1,
    (upgrade_tier_user_fields user0).2.2.2.2.2.1,
    (upgrade_tier_user_fields user0).2.2.2.2.2.2.1,
    (upgrade_tier_user_fields user0).2.2.2.2.2.2.2.1,
    (upgrade_tier_user_fields user0).2.2.2.2.2.2.2.2, ?_⟩
  · rw [lookup_update, if_pos rfl, hs]
    rfl
  · rw [lookup_update, if_neg (fun h => hk h.symm)]

/-- Witness for C10: upgrading alice (Tier 1) in the sample store, observed
also at bob's key. -/
theorem upgrade_tier_step_spec_witness :
    ∃ user1, storeLookup (upgrade_tier sampleStore "alice").2 "alice"
        = some user1 ∧
      (acctA.tier = "Tier 1" → user1.tier = "Tier 2") ∧
      (acctA.tier = "Tier 2" → user1.tier = "Tier 3") ∧
      (acctA.tier = "Tier 3" → user1.tier = "Tier 3") ∧
      user1.balance = acctA.balance ∧
      user1.daily_used = acctA.daily_used ∧
      user1.transactions = acctA.transactions ∧
      user1.last_txn_date = acctA.last_txn_date ∧
      user1.pin = acctA.pin ∧
      user1.name = acctA.name ∧
      user1.account_no = acctA.account_no ∧
      user1.account_type = acctA.account_type ∧
      user1.status = acctA.status ∧
      storeLookup (upgrade_tier sampleStore "alice").2 "bob"
        = storeLookup sampleStore "bob" :=
  upgrade_tier_step_spec sampleStore "alice" "bob" acctA
    (by with_unfolding_all decide) (by with_unfolding_all decide)
